import Mathlib

/-!
Shallow embedding of the translation core of the Literature Reading Assistant:
the language-code table (config.py) and the three translation providers with
the batch loop and the worker thread boundary (translators.py).

External effects are made explicit:
* the network is an environment parameter giving, per item, either a parsed
  vendor response or an exception (transport or JSON-parse failure);
* the hash functions of the standard hashlib library (md5, sha256, both used
  only through their lowercase hexdigest) are abstract function parameters;
* the per-item random salt and current time are environment parameters;
* a progress callback is a function that either returns normally or raises,
  modelled in the Except monad; the loop records each invocation that happens.
-/

/-- config.py, LANG_ITEMS: (display name, generic code, Baidu code, Youdao code). -/
def LANG_ITEMS : List (String × String × String × String) :=
  [ ("简体中文", "zh-CN", "zh", "zh-CHS"),
    ("繁體中文", "zh-TW", "cht", "zh-CHT"),
    ("英语", "en", "en", "en"),
    ("日语", "ja", "jp", "ja"),
    ("韩语", "ko", "kor", "ko"),
    ("法语", "fr", "fra", "fr"),
    ("德语", "de", "de", "de"),
    ("西班牙语", "es", "spa", "es"),
    ("俄语", "ru", "ru", "ru"),
    ("阿拉伯语", "ar", "ara", "ar"),
    ("意大利语", "it", "it", "it"),
    ("葡萄牙语", "pt", "pt", "pt") ]

/-- config.py, get_baidu_lang: first table entry whose generic code matches,
else the generic code unchanged. -/
def get_baidu_lang (generic : String) : String :=
  match LANG_ITEMS.find? (fun item => item.2.1 == generic) with
  | some item => item.2.2.1
  | none => generic

/-- config.py, get_youdao_lang: first table entry whose generic code matches,
else the generic code unchanged. -/
def get_youdao_lang (generic : String) : String :=
  match LANG_ITEMS.find? (fun item => item.2.1 == generic) with
  | some item => item.2.2.2
  | none => generic

/-- The guard not text.strip() used by every provider: text.strip() removes
leading and trailing whitespace, so it is falsy (empty) exactly when every
character of the text is whitespace. -/
def strip_is_empty (s : String) : Bool :=
  s.data.all Char.isWhitespace

/-- GoogleWebTranslator: the only state relevant to behaviour is the ready
flag set in the constructor (deep_translator import succeeded or not). -/
structure GoogleWebTranslator where
  ready : Bool

/-- GoogleWebTranslator.translate_text. The external GoogleTranslator call is
the environment value net (ok = returned translation, error = raised).
Also returns the list of external calls attempted, as (text, target) pairs. -/
def GoogleWebTranslator.translate_text (self : GoogleWebTranslator)
    (net : Except Unit String) (text : String) (target : String) :
    String × List (String × String) :=
  if strip_is_empty text then (text, [])
  else if !self.ready then (text, [])
  else
    match net with
    | Except.ok s => (s, [(text, target)])
    | Except.error _ => (text, [(text, target)])

/-- Parsed JSON body of a Baidu response: the error_code field if present
(with its value), and the dst field of each trans_result entry (none when
the entry has no dst field). -/
structure BaiduResp where
  error_code : Option String
  trans_result : List (Option String)

/-- The form fields POSTed by BaiduTranslator._translate_once. -/
structure BaiduRequest where
  q : String
  fromLang : String
  toLang : String
  appid : String
  salt : String
  sign : String

/-- BaiduTranslator credentials (the endpoint is a constant). -/
structure BaiduTranslator where
  appid : String
  key : String

/-- translators.py, BaiduTranslator._sign: md5 hexdigest of appid+q+salt+key. -/
def BaiduTranslator.sign_of (md5hex : String → String) (self : BaiduTranslator)
    (q : String) (salt : String) : String :=
  md5hex (self.appid ++ q ++ salt ++ self.key)

/-- translators.py, BaiduTranslator._translate_once. The POST and resp.json()
are the environment value net (error = any transport or parse exception).
Result string, plus the list of requests actually sent (empty for blank input). -/
def BaiduTranslator.translate_once (md5hex : String → String) (self : BaiduTranslator)
    (salt : String) (net : Except Unit BaiduResp) (text : String) (target : String) :
    String × List BaiduRequest :=
  if strip_is_empty text then (text, [])
  else
    let params : BaiduRequest :=
      { q := text, fromLang := "auto", toLang := get_baidu_lang target,
        appid := self.appid, salt := salt,
        sign := self.sign_of md5hex text salt }
    match net with
    | Except.error _ => (text, [params])
    | Except.ok data =>
      if data.error_code.isSome then (text, [params])
      else
        match data.trans_result with
        | [] => (text, [params])
        | first :: _ =>
          let dst := first.getD text
          (if dst = "" then text else dst, [params])

/-- Parsed JSON body of a Youdao response: the errorCode field (none when
absent) and the translation list. -/
structure YoudaoResp where
  errorCode : Option String
  translation : List String

/-- The form fields POSTed by YoudaoTranslator._translate_once. -/
structure YoudaoRequest where
  q : String
  fromLang : String
  toLang : String
  appKey : String
  salt : String
  signType : String
  curtime : String
  sign : String

/-- YoudaoTranslator credentials (the endpoint is a constant). -/
structure YoudaoTranslator where
  app_key : String
  app_secret : String

/-- translators.py, YoudaoTranslator._truncate: signing input for v3 signing.
The source guards against q being None, returning the empty string. -/
def YoudaoTranslator.truncate (q : Option String) : String :=
  match q with
  | none => ""
  | some q =>
    let size := q.length
    if size ≤ 20 then q else q.take 10 ++ toString size ++ q.drop (size - 10)

/-- translators.py, YoudaoTranslator._sign: sha256 hexdigest of
appKey + truncate(q) + salt + curtime + appSecret. -/
def YoudaoTranslator.sign_of (sha256hex : String → String) (self : YoudaoTranslator)
    (q : String) (salt : String) (curtime : String) : String :=
  sha256hex (self.app_key ++ YoudaoTranslator.truncate (some q) ++ salt ++ curtime
    ++ self.app_secret)

/-- translators.py, YoudaoTranslator._translate_once. -/
def YoudaoTranslator.translate_once (sha256hex : String → String) (self : YoudaoTranslator)
    (salt : String) (curtime : String) (net : Except Unit YoudaoResp)
    (text : String) (target : String) : String × List YoudaoRequest :=
  if strip_is_empty text then (text, [])
  else
    let payload : YoudaoRequest :=
      { q := text, fromLang := "auto", toLang := get_youdao_lang target,
        appKey := self.app_key, salt := salt, signType := "v3", curtime := curtime,
        sign := self.sign_of sha256hex text salt curtime }
    match net with
    | Except.error _ => (text, [payload])
    | Except.ok data =>
      if data.errorCode ≠ some "0" then (text, [payload])
      else
        match data.translation with
        | [] => (text, [payload])
        | first :: _ => (if first = "" then text else first, [payload])

/-- One progress-callback step of the translate_many loop. The source invokes
progress_cb(i, total) inside try/except Exception: pass, so a raising callback
is caught and the loop continues either way; the returned list records the
invocation that happened. -/
def progress_step (cb : Option (Nat → Nat → Except Unit Unit)) (i : Nat) (total : Nat) :
    Except Unit (List (Nat × Nat)) :=
  match cb with
  | none => Except.ok []
  | some f =>
    match f i total with
    | Except.ok _ => Except.ok [(i, total)]
    | Except.error _ => Except.ok [(i, total)]

/-- The body shared verbatim by the three translate_many implementations:
for i, t in enumerate(texts, start=1): append once(i, t); call progress_cb.
Returns (results, requests sent, progress invocations); an uncaught callback
exception would abort through the Except monad. -/
def translate_many_loop {ρ : Type} (once : Nat → String → String × List ρ)
    (cb : Option (Nat → Nat → Except Unit Unit)) (total : Nat) :
    Nat → List String → Except Unit (List String × List ρ × List (Nat × Nat))
  | _, [] => Except.ok ([], [], [])
  | i, t :: ts =>
    match progress_step cb i total with
    | Except.error e => Except.error e
    | Except.ok c =>
      match translate_many_loop once cb total (i + 1) ts with
      | Except.error e => Except.error e
      | Except.ok out =>
        Except.ok ((once i t).1 :: out.1, (once i t).2 ++ out.2.1, c ++ out.2.2)

/-- translators.py, GoogleWebTranslator.translate_many. net i is the external
call outcome for the i-th item (1-based, as enumerate(texts, start=1)). -/
def GoogleWebTranslator.translate_many (self : GoogleWebTranslator)
    (net : Nat → Except Unit String) (texts : List String) (target : String)
    (progress_cb : Option (Nat → Nat → Except Unit Unit)) :
    Except Unit (List String × List (String × String) × List (Nat × Nat)) :=
  translate_many_loop (fun i t => self.translate_text (net i) t target)
    progress_cb texts.length 1 texts

/-- translators.py, BaiduTranslator.translate_many. salts i and net i are the
random salt and network outcome for the i-th item (1-based). -/
def BaiduTranslator.translate_many (md5hex : String → String) (self : BaiduTranslator)
    (salts : Nat → String) (net : Nat → Except Unit BaiduResp)
    (texts : List String) (target : String)
    (progress_cb : Option (Nat → Nat → Except Unit Unit)) :
    Except Unit (List String × List BaiduRequest × List (Nat × Nat)) :=
  translate_many_loop (fun i t => self.translate_once md5hex (salts i) (net i) t target)
    progress_cb texts.length 1 texts

/-- translators.py, YoudaoTranslator.translate_many. -/
def YoudaoTranslator.translate_many (sha256hex : String → String) (self : YoudaoTranslator)
    (salts : Nat → String) (curtimes : Nat → String) (net : Nat → Except Unit YoudaoResp)
    (texts : List String) (target : String)
    (progress_cb : Option (Nat → Nat → Except Unit Unit)) :
    Except Unit (List String × List YoudaoRequest × List (Nat × Nat)) :=
  translate_many_loop
    (fun i t => self.translate_once sha256hex (salts i) (curtimes i) (net i) t target)
    progress_cb texts.length 1 texts

/-- Qt signals emitted by TranslateWorker. -/
inductive WorkerEvent where
  | progress (done : Nat) (total : Nat)
  | finished_with_result (res : List String)
  | failed (msg : String)
deriving DecidableEq

/-- Whether an event is a terminal failure signal. -/
def WorkerEvent.isFailure : WorkerEvent → Bool
  | WorkerEvent.failed _ => true
  | _ => false

/-- Whether an event is a terminal success (result) signal. -/
def WorkerEvent.isSuccess : WorkerEvent → Bool
  | WorkerEvent.finished_with_result _ => true
  | _ => false

/-- translators.py, TranslateWorker.run: the translate_many call forwards each
progress callback invocation as a progress signal; on normal return the result
list is emitted once, and an exception escaping translate_many is caught and
emitted once as a failed signal with its message. The outcome argument is the
observable behaviour of the translate_many call: the progress invocations that
happened, then either a returned list or a raised exception message. -/
def TranslateWorker.run (outcome : List (Nat × Nat) × Except String (List String)) :
    List WorkerEvent :=
  let progressEvents := outcome.1.map (fun p => WorkerEvent.progress p.1 p.2)
  match outcome.2 with
  | Except.ok result => progressEvents ++ [WorkerEvent.finished_with_result result]
  | Except.error e => progressEvents ++ [WorkerEvent.failed e]

/-- Pure value of the results list built by translate_many_loop. -/
def loop_results {ρ : Type} (once : Nat → String → String × List ρ) :
    Nat → List String → List String
  | _, [] => []
  | i, t :: ts => (once i t).1 :: loop_results once (i + 1) ts

/-- Pure value of the request log of translate_many_loop. -/
def loop_requests {ρ : Type} (once : Nat → String → String × List ρ) :
    Nat → List String → List ρ
  | _, [] => []
  | i, t :: ts => (once i t).2 ++ loop_requests once (i + 1) ts

/-- Pure value of the progress-invocation log of translate_many_loop. -/
def loop_calls (hasCb : Bool) (total : Nat) : Nat → List String → List (Nat × Nat)
  | _, [] => []
  | i, _ :: ts => (if hasCb then [(i, total)] else []) ++ loop_calls hasCb total (i + 1) ts

/-- The per-item result values of the translate_many loop, as a pure list
(requests and callbacks stripped away). -/
def heap_results (once : Nat → String → String) : Nat → List String → List String
  | _, [] => []
  | i, t :: ts => once i t :: heap_results once (i + 1) ts

/-- Python object-level model of the translate_many loop body: the heap maps
references to list objects, and results.append(once(i, t)) mutates only the
object behind the results reference. -/
def heap_append_loop (once : Nat → String → String) :
    Nat → List String → List (List String) → Nat → List (List String)
  | _, [], h, _ => h
  | i, t :: ts, h, rRef =>
    heap_append_loop once (i + 1) ts (h.set rRef (h.getD rRef [] ++ [once i t])) rRef

/-- Python object-level model of translate_many: texts is passed by
reference into the heap; the statement results = [] allocates a fresh list
object (a reference no existing object has); the loop appends each item
result to it; the reference to the fresh object is returned. -/
def translate_many_heap (once : Nat → String → String) (heap : List (List String))
    (textsRef : Nat) : Option (List (List String) × Nat) :=
  match heap[textsRef]? with
  | none => none
  | some texts =>
    some (heap_append_loop once 1 texts (heap ++ [[]]) heap.length, heap.length)

theorem progress_step_eq (cb : Option (Nat → Nat → Except Unit Unit)) (i total : Nat) :
    progress_step cb i total = Except.ok (if cb.isSome then [(i, total)] else []) := by
  cases cb with
  | none => rfl
  | some f =>
    cases h : f i total with
    | ok u => simp [progress_step, h]
    | error e => simp [progress_step, h]

theorem translate_many_loop_eq {ρ : Type} (once : Nat → String → String × List ρ)
    (cb : Option (Nat → Nat → Except Unit Unit)) (total : Nat) :
    ∀ (i : Nat) (ts : List String),
      translate_many_loop once cb total i ts =
        Except.ok (loop_results once i ts, loop_requests once i ts,
          loop_calls cb.isSome total i ts)
  | _, [] => rfl
  | i, t :: ts => by
    rw [translate_many_loop, progress_step_eq,
      translate_many_loop_eq once cb total (i + 1) ts]
    rfl

theorem loop_results_length {ρ : Type} (once : Nat → String → String × List ρ) :
    ∀ (i : Nat) (ts : List String), (loop_results once i ts).length = ts.length
  | _, [] => rfl
  | i, _ :: ts => by
    simp [loop_results, loop_results_length once (i + 1) ts]

theorem loop_results_getElem {ρ : Type} (once : Nat → String → String × List ρ) :
    ∀ (i : Nat) (ts : List String) (k : Nat) (t : String), ts[k]? = some t →
      (loop_results once i ts)[k]? = some (once (i + k) t).1 := by
  intro i ts
  induction ts generalizing i with
  | nil => intro k t h; simp at h
  | cons x ts ih =>
    intro k t h
    cases k with
    | zero =>
      simp at h
      simp [loop_results, h]
    | succ k =>
      simp at h
      have := ih (i + 1) k t h
      simp [loop_results, this, Nat.add_assoc, Nat.add_comm 1 k]

theorem loop_calls_length (hasCb : Bool) (total : Nat) :
    ∀ (i : Nat) (ts : List String),
      (loop_calls hasCb total i ts).length = if hasCb then ts.length else 0
  | _, [] => by cases hasCb <;> rfl
  | i, _ :: ts => by
    cases hasCb <;>
      simp [loop_calls, loop_calls_length _ total (i + 1) ts]

theorem loop_calls_getElem (total : Nat) :
    ∀ (i : Nat) (ts : List String) (k : Nat), k < ts.length →
      (loop_calls true total i ts)[k]? = some (i + k, total) := by
  intro i ts
  induction ts generalizing i with
  | nil => intro k h; simp at h
  | cons x ts ih =>
    intro k h
    cases k with
    | zero => simp [loop_calls]
    | succ k =>
      simp at h
      have := ih (i + 1) k h
      simp [loop_calls, this, Nat.add_assoc, Nat.add_comm 1 k]

theorem loop_requests_of_empty {ρ : Type} (once : Nat → String → String × List ρ)
    (honce : ∀ i t, (once i t).2 = []) :
    ∀ (i : Nat) (ts : List String), loop_requests once i ts = []
  | _, [] => rfl
  | i, t :: ts => by
    simp [loop_requests, honce, loop_requests_of_empty once honce (i + 1) ts]

/-- Claim C8: a canonical code absent from the 12-entry table is returned
unchanged by get_baidu_lang and get_youdao_lang (never raising), and each of
the 12 table entries maps to its provider-specific code. -/
theorem c8_language_code_map :
    (∀ g : String, g ∉ LANG_ITEMS.map (fun item => item.2.1) →
      get_baidu_lang g = g ∧ get_youdao_lang g = g) ∧
    (get_baidu_lang "zh-CN" = "zh" ∧ get_youdao_lang "zh-CN" = "zh-CHS") ∧
    (get_baidu_lang "zh-TW" = "cht" ∧ get_youdao_lang "zh-TW" = "zh-CHT") ∧
    (get_baidu_lang "en" = "en" ∧ get_youdao_lang "en" = "en") ∧
    (get_baidu_lang "ja" = "jp" ∧ get_youdao_lang "ja" = "ja") ∧
    (get_baidu_lang "ko" = "kor" ∧ get_youdao_lang "ko" = "ko") ∧
    (get_baidu_lang "fr" = "fra" ∧ get_youdao_lang "fr" = "fr") ∧
    (get_baidu_lang "de" = "de" ∧ get_youdao_lang "de" = "de") ∧
    (get_baidu_lang "es" = "spa" ∧ get_youdao_lang "es" = "es") ∧
    (get_baidu_lang "ru" = "ru" ∧ get_youdao_lang "ru" = "ru") ∧
    (get_baidu_lang "ar" = "ara" ∧ get_youdao_lang "ar" = "ar") ∧
    (get_baidu_lang "it" = "it" ∧ get_youdao_lang "it" = "it") ∧
    (get_baidu_lang "pt" = "pt" ∧ get_youdao_lang "pt" = "pt") := by
  refine ⟨?_, by decide, by decide, by decide, by decide, by decide, by decide,
    by decide, by decide, by decide, by decide, by decide, by decide⟩
  intro g hg
  have hfind : LANG_ITEMS.find? (fun item => item.2.1 == g) = none := by
    rw [List.find?_eq_none]
    intro x hx
    simp only [beq_iff_eq]
    intro hxg
    exact hg (List.mem_map.mpr ⟨x, hx, hxg⟩)
  exact ⟨by simp [get_baidu_lang, hfind], by simp [get_youdao_lang, hfind]⟩

theorem c8_witness : get_baidu_lang "eo" = "eo" ∧ get_youdao_lang "eo" = "eo" :=
  c8_language_code_map.1 "eo" (by decide)

/-- Claim C3: the Youdao signing input is q verbatim for length at most 20,
else first 10 chars, decimal length, last 10 chars; and the signature is the
sha256 hexdigest of appKey + signingInput + salt + curtime + appSecret. -/
theorem c3_youdao_signing (sha256hex : String → String) (self : YoudaoTranslator)
    (q : String) (salt : String) (curtime : String) :
    (q.length ≤ 20 → YoudaoTranslator.truncate (some q) = q) ∧
    (20 < q.length →
      YoudaoTranslator.truncate (some q) =
        q.take 10 ++ toString q.length ++ q.drop (q.length - 10)) ∧
    self.sign_of sha256hex q salt curtime =
      sha256hex (self.app_key ++ YoudaoTranslator.truncate (some q) ++ salt ++ curtime
        ++ self.app_secret) := by
  refine ⟨?_, ?_, rfl⟩
  · intro h
    show (if q.length ≤ 20 then q
      else q.take 10 ++ toString q.length ++ q.drop (q.length - 10)) = q
    exact if_pos h
  · intro h
    show (if q.length ≤ 20 then q
      else q.take 10 ++ toString q.length ++ q.drop (q.length - 10)) = _
    exact if_neg (Nat.not_le.mpr h)

theorem c3_witness :
    YoudaoTranslator.truncate (some "hello") = "hello" ∧
    YoudaoTranslator.truncate (some "abcdefghijklmnopqrstuvwxyz") =
      "abcdefghij" ++ "26" ++ "qrstuvwxyz" := by
  constructor
  · exact (c3_youdao_signing id ⟨"k", "s"⟩ "hello" "1" "2").1 (by decide)
  · rw [(c3_youdao_signing id ⟨"k", "s"⟩ "abcdefghijklmnopqrstuvwxyz" "1" "2").2.1 (by decide)]
    decide

/-- Claim C4: the Baidu signature is the md5 hexdigest of appid+text+salt+key;
at appid a, text hello, salt 123456, key k it is the md5 hexdigest of the
string ahello123456k; and any request actually POSTed carries that sign. -/
theorem c4_baidu_signing (md5hex : String → String) (self : BaiduTranslator)
    (q : String) (salt : String) (net : Except Unit BaiduResp)
    (text : String) (target : String) :
    self.sign_of md5hex q salt = md5hex (self.appid ++ q ++ salt ++ self.key) ∧
    BaiduTranslator.sign_of md5hex ⟨"a", "k"⟩ "hello" "123456" = md5hex "ahello123456k" ∧
    ((self.translate_once md5hex salt net text target).2 = [] ∨
      (self.translate_once md5hex salt net text target).2 =
        [{ q := text, fromLang := "auto", toLang := get_baidu_lang target,
           appid := self.appid, salt := salt,
           sign := md5hex (self.appid ++ text ++ salt ++ self.key) }]) := by
  refine ⟨rfl, rfl, ?_⟩
  by_cases h : strip_is_empty text = true
  · left
    simp [BaiduTranslator.translate_once, h]
  · right
    cases net with
    | error e => simp [BaiduTranslator.translate_once, BaiduTranslator.sign_of, h]
    | ok data =>
      by_cases he : data.error_code.isSome
      · simp [BaiduTranslator.translate_once, BaiduTranslator.sign_of, h, he]
      · cases htr : data.trans_result with
        | nil => simp [BaiduTranslator.translate_once, BaiduTranslator.sign_of, h, he, htr]
        | cons first rest =>
          by_cases hd : first.getD text = ""
          · simp [BaiduTranslator.translate_once, BaiduTranslator.sign_of, h, he, htr, hd]
          · simp [BaiduTranslator.translate_once, BaiduTranslator.sign_of, h, he, htr, hd]

/-- Claim C7: when the translate_many call raises, TranslateWorker.run emits
exactly one failed signal carrying the message and no result signal; when it
returns normally, run emits exactly one result signal carrying the full list
and no failed signal. -/
theorem c7_worker_terminal_events :
    ∀ (ps : List (Nat × Nat)) (e : String) (r : List String),
      ((TranslateWorker.run (ps, Except.error e)).filter WorkerEvent.isFailure =
          [WorkerEvent.failed e] ∧
        (TranslateWorker.run (ps, Except.error e)).filter WorkerEvent.isSuccess = []) ∧
      ((TranslateWorker.run (ps, Except.ok r)).filter WorkerEvent.isSuccess =
          [WorkerEvent.finished_with_result r] ∧
        (TranslateWorker.run (ps, Except.ok r)).filter WorkerEvent.isFailure = []) := by
  intro ps e r
  have hfail : (ps.map (fun p => WorkerEvent.progress p.1 p.2)).filter
      WorkerEvent.isFailure = [] := by
    rw [List.filter_eq_nil_iff]
    intro a ha
    obtain ⟨p, hp, rfl⟩ := List.mem_map.mp ha
    simp [WorkerEvent.isFailure]
  have hsucc : (ps.map (fun p => WorkerEvent.progress p.1 p.2)).filter
      WorkerEvent.isSuccess = [] := by
    rw [List.filter_eq_nil_iff]
    intro a ha
    obtain ⟨p, hp, rfl⟩ := List.mem_map.mp ha
    simp [WorkerEvent.isSuccess]
  refine ⟨⟨?_, ?_⟩, ?_, ?_⟩ <;>
    simp [TranslateWorker.run, List.filter_append, hfail, hsucc,
      WorkerEvent.isFailure, WorkerEvent.isSuccess]

/-- Claim C1: for each provider, translate_many returns a list of the same
length as the input, whose element at index k is the translation-or-fallback
of input element k (order preserved), for every network environment,
including environments where some or all items fail. -/
theorem c1_translate_many_pointwise :
    (∀ (self : GoogleWebTranslator) (net : Nat → Except Unit String)
        (texts : List String) (target : String)
        (cb : Option (Nat → Nat → Except Unit Unit)),
      ∃ results requests calls,
        self.translate_many net texts target cb = Except.ok (results, requests, calls) ∧
        results.length = texts.length ∧
        ∀ k t, texts[k]? = some t →
          results[k]? = some (self.translate_text (net (k + 1)) t target).1) ∧
    (∀ (md5hex : String → String) (self : BaiduTranslator) (salts : Nat → String)
        (net : Nat → Except Unit BaiduResp) (texts : List String) (target : String)
        (cb : Option (Nat → Nat → Except Unit Unit)),
      ∃ results requests calls,
        self.translate_many md5hex salts net texts target cb =
          Except.ok (results, requests, calls) ∧
        results.length = texts.length ∧
        ∀ k t, texts[k]? = some t →
          results[k]? =
            some (self.translate_once md5hex (salts (k + 1)) (net (k + 1)) t target).1) ∧
    (∀ (sha256hex : String → String) (self : YoudaoTranslator) (salts : Nat → String)
        (curtimes : Nat → String) (net : Nat → Except Unit YoudaoResp)
        (texts : List String) (target : String)
        (cb : Option (Nat → Nat → Except Unit Unit)),
      ∃ results requests calls,
        self.translate_many sha256hex salts curtimes net texts target cb =
          Except.ok (results, requests, calls) ∧
        results.length = texts.length ∧
        ∀ k t, texts[k]? = some t →
          results[k]? =
            some (self.translate_once sha256hex (salts (k + 1)) (curtimes (k + 1))
              (net (k + 1)) t target).1) := by
  refine ⟨?_, ?_, ?_⟩
  · intro self net texts target cb
    refine ⟨_, _, _, translate_many_loop_eq _ cb texts.length 1 texts,
      loop_results_length _ 1 texts, ?_⟩
    intro k t hk
    simpa [Nat.add_comm] using
      loop_results_getElem (fun i t => self.translate_text (net i) t target) 1 texts k t hk
  · intro md5hex self salts net texts target cb
    refine ⟨_, _, _, translate_many_loop_eq _ cb texts.length 1 texts,
      loop_results_length _ 1 texts, ?_⟩
    intro k t hk
    simpa [Nat.add_comm] using
      loop_results_getElem
        (fun i t => self.translate_once md5hex (salts i) (net i) t target) 1 texts k t hk
  · intro sha256hex self salts curtimes net texts target cb
    refine ⟨_, _, _, translate_many_loop_eq _ cb texts.length 1 texts,
      loop_results_length _ 1 texts, ?_⟩
    intro k t hk
    simpa [Nat.add_comm] using
      loop_results_getElem
        (fun i t => self.translate_once sha256hex (salts i) (curtimes i) (net i) t target)
        1 texts k t hk

theorem c1_witness :
    ∃ results requests calls,
      BaiduTranslator.translate_many id ⟨"a", "k"⟩ (fun _ => "1")
        (fun _ => Except.error ()) ["hi", "yo"] "en" none =
        Except.ok (results, requests, calls) ∧
      results.length = 2 ∧ results[0]? = some "hi" ∧ results[1]? = some "yo" := by
  obtain ⟨results, requests, calls, h1, h2, h3⟩ :=
    c1_translate_many_pointwise.2.1 id ⟨"a", "k"⟩ (fun _ => "1")
      (fun _ => Except.error ()) ["hi", "yo"] "en" none
  refine ⟨results, requests, calls, h1, h2, ?_, ?_⟩
  · rw [h3 0 "hi" rfl]
    decide
  · rw [h3 1 "yo" rfl]
    decide

/-- Claim C2: for each provider, a supplied non-raising progress callback is
invoked exactly once per item, the k-th invocation (0-based) with arguments
(k + 1, N); hence the count climbs 1..N and the final call is (N, N). -/
theorem c2_progress_calls :
    (∀ (self : GoogleWebTranslator) (net : Nat → Except Unit String)
        (texts : List String) (target : String) (f : Nat → Nat → Except Unit Unit),
      (∀ a b, f a b = Except.ok ()) →
      ∃ results requests calls,
        self.translate_many net texts target (some f) =
          Except.ok (results, requests, calls) ∧
        calls.length = texts.length ∧
        (∀ k, k < texts.length → calls[k]? = some (k + 1, texts.length)) ∧
        (0 < texts.length →
          calls[texts.length - 1]? = some (texts.length, texts.length))) ∧
    (∀ (md5hex : String → String) (self : BaiduTranslator) (salts : Nat → String)
        (net : Nat → Except Unit BaiduResp) (texts : List String) (target : String)
        (f : Nat → Nat → Except Unit Unit),
      (∀ a b, f a b = Except.ok ()) →
      ∃ results requests calls,
        self.translate_many md5hex salts net texts target (some f) =
          Except.ok (results, requests, calls) ∧
        calls.length = texts.length ∧
        (∀ k, k < texts.length → calls[k]? = some (k + 1, texts.length)) ∧
        (0 < texts.length →
          calls[texts.length - 1]? = some (texts.length, texts.length))) ∧
    (∀ (sha256hex : String → String) (self : YoudaoTranslator) (salts : Nat → String)
        (curtimes : Nat → String) (net : Nat → Except Unit YoudaoResp)
        (texts : List String) (target : String) (f : Nat → Nat → Except Unit Unit),
      (∀ a b, f a b = Except.ok ()) →
      ∃ results requests calls,
        self.translate_many sha256hex salts curtimes net texts target (some f) =
          Except.ok (results, requests, calls) ∧
        calls.length = texts.length ∧
        (∀ k, k < texts.length → calls[k]? = some (k + 1, texts.length)) ∧
        (0 < texts.length →
          calls[texts.length - 1]? = some (texts.length, texts.length))) := by
  have calls_facts : ∀ (total : Nat) (texts : List String),
      (loop_calls true total 1 texts).length = texts.length ∧
      (∀ k, k < texts.length → (loop_calls true total 1 texts)[k]? = some (k + 1, total)) ∧
      (0 < texts.length →
        (loop_calls true total 1 texts)[texts.length - 1]? = some (texts.length, total)) := by
    intro total texts
    refine ⟨by simpa using loop_calls_length true total 1 texts, ?_, ?_⟩
    · intro k hk
      simpa [Nat.add_comm] using loop_calls_getElem total 1 texts k hk
    · intro hpos
      have hk : texts.length - 1 < texts.length := Nat.sub_lt hpos Nat.one_pos
      have := loop_calls_getElem total 1 texts (texts.length - 1) hk
      rwa [Nat.add_comm 1 (texts.length - 1), Nat.sub_add_cancel hpos] at this
  refine ⟨?_, ?_, ?_⟩
  · intro self net texts target f hf
    obtain ⟨hlen, hidx, hfin⟩ := calls_facts texts.length texts
    exact ⟨_, _, _, translate_many_loop_eq _ (some f) texts.length 1 texts,
      hlen, hidx, hfin⟩
  · intro md5hex self salts net texts target f hf
    obtain ⟨hlen, hidx, hfin⟩ := calls_facts texts.length texts
    exact ⟨_, _, _, translate_many_loop_eq _ (some f) texts.length 1 texts,
      hlen, hidx, hfin⟩
  · intro sha256hex self salts curtimes net texts target f hf
    obtain ⟨hlen, hidx, hfin⟩ := calls_facts texts.length texts
    exact ⟨_, _, _, translate_many_loop_eq _ (some f) texts.length 1 texts,
      hlen, hidx, hfin⟩

theorem c2_witness :
    ∃ results requests calls,
      GoogleWebTranslator.translate_many ⟨false⟩ (fun _ => Except.error ()) ["a", "b"]
        "en" (some (fun _ _ => Except.ok ())) = Except.ok (results, requests, calls) ∧
      calls.length = 2 ∧ calls[0]? = some (1, 2) ∧ calls[1]? = some (2, 2) := by
  obtain ⟨results, requests, calls, h1, h2, h3, h4⟩ :=
    c2_progress_calls.1 ⟨false⟩ (fun _ => Except.error ()) ["a", "b"] "en"
      (fun _ _ => Except.ok ()) (fun a b => rfl)
  exact ⟨results, requests, calls, h1, h2, h3 0 (by decide), h3 1 (by decide)⟩

/-- Claim C9: for each provider, a progress callback that raises is caught
inside translate_many: the call still returns normally, every item is still
processed, and the results and requests are exactly those produced with no
callback at all, for an arbitrary (in particular always-raising) callback. -/
theorem c9_callback_exception_swallowed :
    (∀ (self : GoogleWebTranslator) (net : Nat → Except Unit String)
        (texts : List String) (target : String) (f : Nat → Nat → Except Unit Unit),
      ∃ results requests calls calls2,
        self.translate_many net texts target (some f) =
          Except.ok (results, requests, calls) ∧
        self.translate_many net texts target none =
          Except.ok (results, requests, calls2) ∧
        results.length = texts.length) ∧
    (∀ (md5hex : String → String) (self : BaiduTranslator) (salts : Nat → String)
        (net : Nat → Except Unit BaiduResp) (texts : List String) (target : String)
        (f : Nat → Nat → Except Unit Unit),
      ∃ results requests calls calls2,
        self.translate_many md5hex salts net texts target (some f) =
          Except.ok (results, requests, calls) ∧
        self.translate_many md5hex salts net texts target none =
          Except.ok (results, requests, calls2) ∧
        results.length = texts.length) ∧
    (∀ (sha256hex : String → String) (self : YoudaoTranslator) (salts : Nat → String)
        (curtimes : Nat → String) (net : Nat → Except Unit YoudaoResp)
        (texts : List String) (target : String) (f : Nat → Nat → Except Unit Unit),
      ∃ results requests calls calls2,
        self.translate_many sha256hex salts curtimes net texts target (some f) =
          Except.ok (results, requests, calls) ∧
        self.translate_many sha256hex salts curtimes net texts target none =
          Except.ok (results, requests, calls2) ∧
        results.length = texts.length) := by
  refine ⟨?_, ?_, ?_⟩
  · intro self net texts target f
    exact ⟨_, _, _, _, translate_many_loop_eq _ (some f) texts.length 1 texts,
      translate_many_loop_eq _ none texts.length 1 texts, loop_results_length _ 1 texts⟩
  · intro md5hex self salts net texts target f
    exact ⟨_, _, _, _, translate_many_loop_eq _ (some f) texts.length 1 texts,
      translate_many_loop_eq _ none texts.length 1 texts, loop_results_length _ 1 texts⟩
  · intro sha256hex self salts curtimes net texts target f
    exact ⟨_, _, _, _, translate_many_loop_eq _ (some f) texts.length 1 texts,
      translate_many_loop_eq _ none texts.length 1 texts, loop_results_length _ 1 texts⟩

/-- Claim C5: a vendor JSON error response (Baidu: an error_code field present
with any value; Youdao: an errorCode field absent or holding any value other
than the string 0) makes the provider return the original input text for that
item, and every item of the batch is still processed to its own
translation-or-fallback. -/
theorem c5_vendor_error_fallback :
    (∀ (md5hex : String → String) (self : BaiduTranslator)
        (salt text target v : String) (data : BaiduResp),
      data.error_code = some v →
      (self.translate_once md5hex salt (Except.ok data) text target).1 = text) ∧
    (∀ (sha256hex : String → String) (self : YoudaoTranslator)
        (salt curtime text target : String) (data : YoudaoResp),
      data.errorCode ≠ some "0" →
      (self.translate_once sha256hex salt curtime (Except.ok data) text target).1 =
        text) ∧
    (∀ (md5hex : String → String) (self : BaiduTranslator) (salts : Nat → String)
        (net : Nat → Except Unit BaiduResp) (texts : List String) (target : String)
        (cb : Option (Nat → Nat → Except Unit Unit)),
      ∃ results requests calls,
        self.translate_many md5hex salts net texts target cb =
          Except.ok (results, requests, calls) ∧
        results.length = texts.length ∧
        ∀ k t, texts[k]? = some t →
          results[k]? =
            some (self.translate_once md5hex (salts (k + 1)) (net (k + 1)) t target).1) ∧
    (∀ (sha256hex : String → String) (self : YoudaoTranslator) (salts : Nat → String)
        (curtimes : Nat → String) (net : Nat → Except Unit YoudaoResp)
        (texts : List String) (target : String)
        (cb : Option (Nat → Nat → Except Unit Unit)),
      ∃ results requests calls,
        self.translate_many sha256hex salts curtimes net texts target cb =
          Except.ok (results, requests, calls) ∧
        results.length = texts.length ∧
        ∀ k t, texts[k]? = some t →
          results[k]? =
            some (self.translate_once sha256hex (salts (k + 1)) (curtimes (k + 1))
              (net (k + 1)) t target).1) := by
  refine ⟨?_, ?_, ?_, ?_⟩
  · intro md5hex self salt text target v data h
    by_cases ht : strip_is_empty text = true
    · simp [BaiduTranslator.translate_once, ht]
    · simp [BaiduTranslator.translate_once, ht, h]
  · intro sha256hex self salt curtime text target data h
    by_cases ht : strip_is_empty text = true
    · simp [YoudaoTranslator.translate_once, ht]
    · simp [YoudaoTranslator.translate_once, ht, h]
  · intro md5hex self salts net texts target cb
    refine ⟨_, _, _, translate_many_loop_eq _ cb texts.length 1 texts,
      loop_results_length _ 1 texts, ?_⟩
    intro k t hk
    simpa [Nat.add_comm] using
      loop_results_getElem
        (fun i t => self.translate_once md5hex (salts i) (net i) t target) 1 texts k t hk
  · intro sha256hex self salts curtimes net texts target cb
    refine ⟨_, _, _, translate_many_loop_eq _ cb texts.length 1 texts,
      loop_results_length _ 1 texts, ?_⟩
    intro k t hk
    simpa [Nat.add_comm] using
      loop_results_getElem
        (fun i t => self.translate_once sha256hex (salts i) (curtimes i) (net i) t target)
        1 texts k t hk

theorem c5_witness :
    (BaiduTranslator.translate_once id ⟨"a", "k"⟩ "1"
        (Except.ok ⟨some "54003", [some "X"]⟩) "hi" "en").1 = "hi" ∧
    (YoudaoTranslator.translate_once id ⟨"a", "s"⟩ "1" "2"
        (Except.ok ⟨none, ["X"]⟩) "hi" "en").1 = "hi" ∧
    (∃ results requests calls,
      BaiduTranslator.translate_many id ⟨"a", "k"⟩ (fun _ => "1")
        (fun _ => Except.ok ⟨some "54003", [some "X"]⟩) ["hi", "yo"] "en" none =
        Except.ok (results, requests, calls) ∧
      results.length = 2 ∧ results[1]? = some "yo") := by
  refine ⟨c5_vendor_error_fallback.1 id ⟨"a", "k"⟩ "1" "hi" "en" "54003"
      ⟨some "54003", [some "X"]⟩ rfl,
    c5_vendor_error_fallback.2.1 id ⟨"a", "s"⟩ "1" "2" "hi" "en"
      ⟨none, ["X"]⟩ (by decide), ?_⟩
  obtain ⟨results, requests, calls, h1, h2, h3⟩ :=
    c5_vendor_error_fallback.2.2.1 id ⟨"a", "k"⟩ (fun _ => "1")
      (fun _ => Except.ok ⟨some "54003", [some "X"]⟩) ["hi", "yo"] "en" none
  refine ⟨results, requests, calls, h1, h2, ?_⟩
  rw [h3 1 "yo" rfl]
  decide

/-- Claim C6: an item whose text is empty after stripping whitespace is
returned unchanged by every provider with no network request sent for it,
and with a callback supplied the item still counts toward progress like any
other item (one invocation per item of the batch). -/
theorem c6_blank_items :
    (∀ (self : GoogleWebTranslator) (net : Except Unit String) (text target : String),
      strip_is_empty text = true → self.translate_text net text target = (text, [])) ∧
    (∀ (md5hex : String → String) (self : BaiduTranslator) (salt text target : String)
        (net : Except Unit BaiduResp),
      strip_is_empty text = true →
      self.translate_once md5hex salt net text target = (text, [])) ∧
    (∀ (sha256hex : String → String) (self : YoudaoTranslator)
        (salt curtime text target : String) (net : Except Unit YoudaoResp),
      strip_is_empty text = true →
      self.translate_once sha256hex salt curtime net text target = (text, [])) ∧
    (∀ (self : GoogleWebTranslator) (net : Nat → Except Unit String)
        (texts : List String) (target : String) (f : Nat → Nat → Except Unit Unit),
      ∃ results requests calls,
        self.translate_many net texts target (some f) =
          Except.ok (results, requests, calls) ∧
        calls.length = texts.length) ∧
    (∀ (md5hex : String → String) (self : BaiduTranslator) (salts : Nat → String)
        (net : Nat → Except Unit BaiduResp) (texts : List String) (target : String)
        (f : Nat → Nat → Except Unit Unit),
      ∃ results requests calls,
        self.translate_many md5hex salts net texts target (some f) =
          Except.ok (results, requests, calls) ∧
        calls.length = texts.length) ∧
    (∀ (sha256hex : String → String) (self : YoudaoTranslator) (salts : Nat → String)
        (curtimes : Nat → String) (net : Nat → Except Unit YoudaoResp)
        (texts : List String) (target : String) (f : Nat → Nat → Except Unit Unit),
      ∃ results requests calls,
        self.translate_many sha256hex salts curtimes net texts target (some f) =
          Except.ok (results, requests, calls) ∧
        calls.length = texts.length) := by
  refine ⟨?_, ?_, ?_, ?_, ?_, ?_⟩
  · intro self net text target h
    simp [GoogleWebTranslator.translate_text, h]
  · intro md5hex self salt text target net h
    simp [BaiduTranslator.translate_once, h]
  · intro sha256hex self salt curtime text target net h
    simp [YoudaoTranslator.translate_once, h]
  · intro self net texts target f
    exact ⟨_, _, _, translate_many_loop_eq _ (some f) texts.length 1 texts,
      by simpa using loop_calls_length true texts.length 1 texts⟩
  · intro md5hex self salts net texts target f
    exact ⟨_, _, _, translate_many_loop_eq _ (some f) texts.length 1 texts,
      by simpa using loop_calls_length true texts.length 1 texts⟩
  · intro sha256hex self salts curtimes net texts target f
    exact ⟨_, _, _, translate_many_loop_eq _ (some f) texts.length 1 texts,
      by simpa using loop_calls_length true texts.length 1 texts⟩

theorem c6_witness :
    GoogleWebTranslator.translate_text ⟨true⟩ (Except.ok "X") "  " "en" = ("  ", []) ∧
    BaiduTranslator.translate_once id ⟨"a", "k"⟩ "1"
      (Except.ok ⟨none, [some "X"]⟩) "  " "en" = ("  ", []) ∧
    YoudaoTranslator.translate_once id ⟨"a", "s"⟩ "1" "2"
      (Except.ok ⟨some "0", ["X"]⟩) "" "en" = ("", []) :=
  ⟨c6_blank_items.1 ⟨true⟩ (Except.ok "X") "  " "en" (by decide),
   c6_blank_items.2.1 id ⟨"a", "k"⟩ "1" "  " "en" (Except.ok ⟨none, [some "X"]⟩)
     (by decide),
   c6_blank_items.2.2.1 id ⟨"a", "s"⟩ "1" "2" "" "en" (Except.ok ⟨some "0", ["X"]⟩)
     (by decide)⟩

theorem heap_append_loop_frame (once : Nat → String → String) :
    ∀ (ts : List String) (i : Nat) (h : List (List String)) (rRef j : Nat),
      j ≠ rRef → (heap_append_loop once i ts h rRef)[j]? = h[j]?
  | [], _, _, _, _, _ => rfl
  | t :: ts, i, h, rRef, j, hj => by
    rw [heap_append_loop, heap_append_loop_frame once ts (i + 1) _ rRef j hj,
      List.getElem?_set_ne (Ne.symm hj)]

theorem heap_append_loop_at_ref (once : Nat → String → String) :
    ∀ (ts : List String) (i : Nat) (h : List (List String)) (rRef : Nat)
      (cur : List String), h[rRef]? = some cur →
      (heap_append_loop once i ts h rRef)[rRef]? =
        some (cur ++ heap_results once i ts) := by
  intro ts
  induction ts with
  | nil =>
    intro i h rRef cur hc
    simpa [heap_append_loop, heap_results] using hc
  | cons t ts ih =>
    intro i h rRef cur hc
    have hlt : rRef < h.length := (List.getElem?_eq_some.mp hc).1
    have hgetD : h.getD rRef [] = cur := by
      rw [List.getD_eq_getElem?_getD, hc]
      rfl
    rw [heap_append_loop]
    have hset : (h.set rRef (h.getD rRef [] ++ [once i t]))[rRef]? =
        some (cur ++ [once i t]) := by
      rw [hgetD]
      exact List.getElem?_set_eq_of_lt _ hlt
    rw [ih (i + 1) _ rRef _ hset]
    simp [heap_results]

theorem heap_results_eq_loop_results (once : Nat → String → String) :
    ∀ (i : Nat) (ts : List String),
      heap_results once i ts = loop_results (fun j t => (once j t, ([] : List Unit))) i ts
  | _, [] => rfl
  | i, t :: ts => by
    simp [heap_results, loop_results, heap_results_eq_loop_results once (i + 1) ts]

/-- Claim C10: at the Python object level, translate_many does not mutate its
input: the result list is a freshly allocated object (its reference differs
from the input reference), after the call the input list object is
element-wise identical to before, and the fresh object holds exactly the
per-item results of the pure model. -/
theorem c10_no_input_mutation (once : Nat → String → String)
    (heap : List (List String)) (textsRef : Nat) (texts : List String)
    (h : heap[textsRef]? = some texts) :
    ∃ heap2 resultsRef,
      translate_many_heap once heap textsRef = some (heap2, resultsRef) ∧
      resultsRef ≠ textsRef ∧
      heap2[textsRef]? = some texts ∧
      heap2[resultsRef]? = some (heap_results once 1 texts) ∧
      heap_results once 1 texts =
        loop_results (fun i t => (once i t, ([] : List Unit))) 1 texts := by
  have hlt : textsRef < heap.length := (List.getElem?_eq_some.mp h).1
  refine ⟨heap_append_loop once 1 texts (heap ++ [[]]) heap.length, heap.length,
    ?_, Ne.symm (Nat.ne_of_lt hlt), ?_, ?_, heap_results_eq_loop_results once 1 texts⟩
  · simp [translate_many_heap, h]
  · rw [heap_append_loop_frame once texts 1 _ heap.length textsRef (Nat.ne_of_lt hlt),
      List.getElem?_append_left hlt]
    exact h
  · rw [heap_append_loop_at_ref once texts 1 _ heap.length []
      (List.getElem?_concat_length heap [])]
    simp

theorem c10_witness :
    ∃ heap2 resultsRef,
      translate_many_heap (fun _ t => t) [["a"]] 0 = some (heap2, resultsRef) ∧
      resultsRef ≠ 0 ∧ heap2[0]? = some ["a"] ∧ heap2[resultsRef]? = some ["a"] := by
  obtain ⟨heap2, resultsRef, h1, h2, h3, h4, _⟩ :=
    c10_no_input_mutation (fun _ t => t) [["a"]] 0 ["a"] rfl
  exact ⟨heap2, resultsRef, h1, h2, h3, by simpa [heap_results] using h4⟩
